import Mathlib

/-!
Shallow embedding of `src/mcp_server_bigquery/http_server.py`, the FastAPI
HTTP gateway exposing a BigQuery warehouse client (`BigQueryDatabase` from
the repository's `server.py`) to ChatGPT connectors, together with theorems
settling the behavioral claims about it.

The embedding models:
  - an environment (`Env`) as an association list of variables, giving the
    Python `os.environ.get` semantics;
  - the FastAPI `HTTPBearer` security scheme and the module's
    `verify_token` dependency;
  - the three protected endpoint handlers (`execute_query`, `list_tables`,
    `describe_table`), each of which wraps its whole body — including the
    `raise HTTPException(503, "Database not initialized")` statement — in a
    `try`/`except Exception` block, so every exception, the 503 included,
    is folded into the HTTP-200 response envelope;
  - the unprotected health endpoint, the `startup_event` initializer and
    the `custom_openapi` description builder, modelled as rebound by
    `app.openapi = custom_openapi`: its `app.openapi()` call dispatches to
    that same instance attribute, so the builder is self-referential and
    the Python recursion limit (a fuel parameter here) is what stops it.

The warehouse client itself (`server.py`) is not among the provided
sources; its observable behavior is carried by an opaque `Warehouse`
record, and its `list_tables` filtering is modelled from the spec (see the
doc comment on `BigQueryDatabase.list_tables`).

Engine invocations are made observable by having each handler also return
the list of `EngineCall`s it performed, so "the request never reaches the
QueryEngine" is a provable statement.
-/

namespace BQGateway

/-- A result row (`dict[str, Any]` in the source). The gateway never
inspects rows, it only counts and forwards them, so any concrete
executable representation is faithful; we use string-keyed string maps. -/
abbrev Row := List (String × String)

/-- Process environment: an association list of variable names to values.
`get` mirrors `os.environ.get`: the value when the variable is present
(possibly the empty string), `none` when absent. -/
structure Env where
  vars : List (String × String)
deriving Repr

def Env.get (env : Env) (k : String) : Option String :=
  (env.vars.find? (fun p => p.1 == k)).map (fun p => p.2)

/-- Python truthiness test used as `not project` on `os.environ.get`
results: true when the variable is absent or its value is empty. -/
def pyFalsy : Option String → Bool
  | none => true
  | some s => s == ""

/-- Observable behavior of the external warehouse collaborator behind
`BigQueryDatabase` (the Google BigQuery client): for each call, either the
returned value or the message of the exception it raises. -/
structure Warehouse where
  execute : String → Except String (List Row)
  tables : Except String (List String)
  describe : String → Except String (List Row)

/-- The warehouse client constructed by `startup_event` as
`BigQueryDatabase(project, location, key_file, datasets_filter)`. Its
methods live in the repository's `server.py`, which is not among the
provided sources; they are modelled below over the opaque `Warehouse`. -/
structure BigQueryDatabase where
  project : String
  location : String
  key_file : Option String
  datasets_filter : List String
  warehouse : Warehouse

/-- Modelled from the spec: `BigQueryDatabase.execute_query` (defined in
the repository's `server.py`, not among the provided sources) executes the
query string against the warehouse and returns its rows, or raises with
the warehouse's error message; the query is passed through verbatim. -/
def BigQueryDatabase.execute_query (db : BigQueryDatabase) (q : String) :
    Except String (List Row) :=
  db.warehouse.execute q

/-- Characters of `l` before the first occurrence of `sep`, and the
characters after it (Python `str.partition(sep)` restricted to the two
text parts; the second component is empty when `sep` does not occur). -/
def breakAtChar (sep : Char) : List Char → List Char × List Char
  | [] => ([], [])
  | c :: cs =>
      if c = sep then ([], cs)
      else
        match breakAtChar sep cs with
        | (a, b) => (c :: a, b)

/-- Python `str.split(sep)` for a one-character separator: splits into the
(possibly empty) pieces between occurrences of `sep`. -/
def splitChars (sep : Char) : List Char → List (List Char)
  | [] => [[]]
  | c :: cs =>
      match splitChars sep cs with
      | [] => [[]]
      | g :: gs => if c = sep then [] :: g :: gs else (c :: g) :: gs

/-- Python `str.split(sep)` on strings, via `splitChars`. -/
def pySplit (sep : Char) (s : String) : List String :=
  (splitChars sep s.data).map String.mk

/-- Leading-whitespace removal on a character list. -/
def dropLeadingWhitespace : List Char → List Char
  | [] => []
  | c :: cs => if c.isWhitespace then dropLeadingWhitespace cs else c :: cs

/-- Python `str.strip()`: removes leading and trailing whitespace. -/
def pyStrip (s : String) : String :=
  String.mk ((dropLeadingWhitespace (dropLeadingWhitespace s.data).reverse).reverse)

/-- Python `str.lower()`, character-wise. -/
def pyLower (s : String) : String :=
  String.mk (s.data.map Char.toLower)

/-- The dataset component of a fully-qualified `dataset.table` name: the
part before the first dot. -/
def datasetComponent (t : String) : String :=
  String.mk (breakAtChar '.' t.data).1

/-- Modelled from the spec: `BigQueryDatabase.list_tables` (defined in the
repository's `server.py`, not among the provided sources) lists the
accessible tables as `dataset.table` strings and applies the dataset
filter handed to the constructor: when the filter is non-empty only tables
whose dataset component is in the filter are returned, when it is empty
all accessible tables are returned. The HTTP handler itself applies no
filtering, so this is the only place the configured filter can act. -/
def BigQueryDatabase.list_tables (db : BigQueryDatabase) :
    Except String (List String) :=
  match db.warehouse.tables with
  | .error e => .error e
  | .ok ts =>
      if db.datasets_filter.isEmpty then .ok ts
      else .ok (ts.filter (fun t => db.datasets_filter.contains (datasetComponent t)))

/-- Modelled from the spec: `BigQueryDatabase.describe_table` (defined in
the repository's `server.py`, not among the provided sources) returns the
schema/DDL metadata rows for the named table, or raises with the
warehouse's error message. -/
def BigQueryDatabase.describe_table (db : BigQueryDatabase) (t : String) :
    Except String (List Row) :=
  db.warehouse.describe t

/-- `startup_event`: reads `BIGQUERY_DATASETS` (when present) as a
comma-separated list, stripping whitespace and dropping empty entries. -/
def parseDatasetsFilter (env : Env) : List String :=
  match env.get "BIGQUERY_DATASETS" with
  | none => []
  | some s => ((pySplit ',' s).map pyStrip).filter (fun d => d != "")

/-- `startup_event`: reads `BIGQUERY_PROJECT`, `BIGQUERY_LOCATION`,
`BIGQUERY_KEY_FILE` and the dataset filter; raises `ValueError` when
project or location is absent or empty (`if not project or not location`),
otherwise constructs the `BigQueryDatabase` from them. The external
warehouse behavior is a parameter, since the real constructor obtains it
from the Google client library. An `.error` result models the raised
exception aborting startup, so the process never publishes a database
handle and never becomes ready. -/
def startup_event (env : Env) (wh : Warehouse) : Except String BigQueryDatabase :=
  let project := env.get "BIGQUERY_PROJECT"
  let location := env.get "BIGQUERY_LOCATION"
  let key_file := env.get "BIGQUERY_KEY_FILE"
  let datasets_filter := parseDatasetsFilter env
  if pyFalsy project || pyFalsy location then
    .error "BIGQUERY_PROJECT and BIGQUERY_LOCATION environment variables are required"
  else
    .ok { project := project.getD "", location := location.getD "",
          key_file := key_file, datasets_filter := datasets_filter,
          warehouse := wh }

/-- `API_KEY = os.environ.get("MY_API_KEY", "your-secret-api-key")`. -/
def API_KEY_of (env : Env) : String :=
  (env.get "MY_API_KEY").getD "your-secret-api-key"

/-- Request body of `POST /query`. -/
structure QueryRequest where
  query : String
deriving Repr, DecidableEq

/-- Request body of `POST /table/describe`. -/
structure TableNameRequest where
  table_name : String
deriving Repr, DecidableEq

/-- Response model of the health endpoint, with the pydantic field
defaults from the source. -/
structure HealthResponse where
  healthy : Bool
  version : String := "1.0.0"
  service : String := "BigQuery API for ChatGPT Connector"
deriving Repr, DecidableEq

/-- Response envelope of `POST /query`. -/
structure QueryResponse where
  success : Bool
  data : List Row
  row_count : Nat
  error : Option String
deriving Repr, DecidableEq

/-- Response envelope of `GET /tables`. -/
structure TablesResponse where
  success : Bool
  tables : List String
  count : Nat
  error : Option String
deriving Repr, DecidableEq

/-- Response envelope of `POST /table/describe`. -/
structure TableSchemaResponse where
  success : Bool
  ddl : List Row
  error : Option String
deriving Repr, DecidableEq

/-- Outcome of one endpoint invocation: either an HTTP 200 response
carrying the envelope body the handler returned, or an `HTTPException`
that escaped to FastAPI (status code and detail string). -/
inductive Response (α : Type) where
  | envelope (body : α)
  | httpError (status : Nat) (detail : String)
deriving Repr, DecidableEq

/-- One observable call into the warehouse client. -/
inductive EngineCall where
  | execute (query : String)
  | listTables
  | describe (table : String)
deriving Repr, DecidableEq

/-- Python `value.partition(" ")` as used by FastAPI's
`get_authorization_scheme_param`: the text before the first space and the
text after it (empty when there is no space). -/
def partitionSpace (s : String) : String × String :=
  match breakAtChar ' ' s.data with
  | (a, b) => (String.mk a, String.mk b)

/-- FastAPI's `HTTPBearer.__call__` with the default `auto_error=True`, as
instantiated by `security = HTTPBearer()`: a missing or malformed
`Authorization` header raises HTTP 403 "Not authenticated"; a non-bearer
scheme raises HTTP 403 "Invalid authentication credentials"; otherwise the
credential part is handed to the dependency. -/
def httpBearerCall (authorization : Option String) : Except (Nat × String) String :=
  let value := authorization.getD ""
  let scheme := (partitionSpace value).1
  let credentials := (partitionSpace value).2
  if value == "" || scheme == "" || credentials == "" then
    .error (403, "Not authenticated")
  else if pyLower scheme != "bearer" then
    .error (403, "Invalid authentication credentials")
  else
    .ok credentials

/-- `verify_token`: rejects with HTTP 401 "Invalid API key" unless the
presented credential is string-equal to the configured key. -/
def verify_token (API_KEY : String) (credentials : String) :
    Except (Nat × String) String :=
  if credentials != API_KEY then .error (401, "Invalid API key")
  else .ok credentials

/-- The full `Depends(verify_token)` dependency chain of a protected
route: `HTTPBearer` extraction followed by `verify_token`. -/
def authCheck (API_KEY : String) (authorization : Option String) :
    Except (Nat × String) String :=
  match httpBearerCall authorization with
  | .error e => .error e
  | .ok credentials => verify_token API_KEY credentials

/-- Process-wide state read by the handlers: the configured key and the
module-level `db` handle (`None` until `startup_event` publishes it). -/
structure ServerState where
  API_KEY : String
  db : Option BigQueryDatabase

/-- The message `str(e)` produced when the handler's own
`except Exception` clause catches the `HTTPException(503, "Database not
initialized")` raised inside the `try` block; starlette's
`HTTPException.__str__` formats it as `"{status_code}: {detail}"`. -/
def notInitializedMessage : String := "503: Database not initialized"

/-- Handler body of `POST /query`. The whole body sits in a
`try`/`except Exception` block, so both the not-initialized
`HTTPException` and any failure raised by `db.execute_query` are caught
and folded into a `QueryResponse` envelope; no exception escapes. Returns
the envelope and the engine calls performed. -/
def execute_query (db : Option BigQueryDatabase) (request : QueryRequest) :
    QueryResponse × List EngineCall :=
  match db with
  | none =>
      ({ success := false, data := [], row_count := 0,
         error := some notInitializedMessage }, [])
  | some d =>
      match d.execute_query request.query with
      | .ok results =>
          ({ success := true, data := results, row_count := results.length,
             error := none }, [.execute request.query])
      | .error e =>
          ({ success := false, data := [], row_count := 0,
             error := some e }, [.execute request.query])

/-- Handler body of `GET /tables`, with the same `try`/`except Exception`
structure as `execute_query`. -/
def list_tables (db : Option BigQueryDatabase) :
    TablesResponse × List EngineCall :=
  match db with
  | none =>
      ({ success := false, tables := [], count := 0,
         error := some notInitializedMessage }, [])
  | some d =>
      match d.list_tables with
      | .ok tables =>
          ({ success := true, tables := tables, count := tables.length,
             error := none }, [.listTables])
      | .error e =>
          ({ success := false, tables := [], count := 0,
             error := some e }, [.listTables])

/-- Handler body of `POST /table/describe`, with the same
`try`/`except Exception` structure as `execute_query`. -/
def describe_table (db : Option BigQueryDatabase) (request : TableNameRequest) :
    TableSchemaResponse × List EngineCall :=
  match db with
  | none =>
      ({ success := false, ddl := [],
         error := some notInitializedMessage }, [])
  | some d =>
      match d.describe_table request.table_name with
      | .ok schema =>
          ({ success := true, ddl := schema, error := none }, [.describe request.table_name])
      | .error e =>
          ({ success := false, ddl := [], error := some e }, [.describe request.table_name])

/-- Handler of `GET /` and `GET /health`: `HealthResponse(healthy=True)`
with the model's field defaults. -/
def health : HealthResponse := { healthy := true }

/-- The `GET /` and `GET /health` endpoints: unprotected, ignore the
server state and any presented credential, and always return the health
envelope. -/
def getHealth (_st : ServerState) (_authorization : Option String) :
    Response HealthResponse :=
  .envelope health

/-- The `POST /query` endpoint: dependency chain, then handler body. -/
def postQuery (st : ServerState) (authorization : Option String)
    (request : QueryRequest) : Response QueryResponse × List EngineCall :=
  match authCheck st.API_KEY authorization with
  | .error e => (.httpError e.1 e.2, [])
  | .ok _ =>
      let r := execute_query st.db request
      (.envelope r.1, r.2)

/-- The `GET /tables` endpoint: dependency chain, then handler body. -/
def getTables (st : ServerState) (authorization : Option String) :
    Response TablesResponse × List EngineCall :=
  match authCheck st.API_KEY authorization with
  | .error e => (.httpError e.1 e.2, [])
  | .ok _ =>
      let r := list_tables st.db
      (.envelope r.1, r.2)

/-- The `POST /table/describe` endpoint: dependency chain, then handler
body. -/
def describeTable (st : ServerState) (authorization : Option String)
    (request : TableNameRequest) : Response TableSchemaResponse × List EngineCall :=
  match authCheck st.API_KEY authorization with
  | .error e => (.httpError e.1 e.2, [])
  | .ok _ =>
      let r := describe_table st.db request
      (.envelope r.1, r.2)

/-- The OpenAPI description: a server list (absent in the
framework-generated schema unless injected) and the rest of the generated
document, opaque here. -/
structure OpenAPISchema where
  servers : Option (List String)
  body : String
deriving Repr, DecidableEq

/-- The mutable `app.openapi_schema` attribute read and written by
`custom_openapi`. -/
structure AppState where
  openapi_schema : Option OpenAPISchema
deriving Repr, DecidableEq

/-- A Python runtime error observable at the HTTP layer. -/
inductive PyError where
  | recursionError
deriving Repr, DecidableEq

/-- `custom_openapi` as it actually runs: the module executes
`app.openapi = custom_openapi` before any request, so the `app.openapi()`
call inside the function dispatches to that instance attribute — to
`custom_openapi` itself, with `app.openapi_schema` unchanged. The Python
interpreter's recursion-depth limit is modelled by `fuel`; exhausting it
is the `RecursionError` the real call stack raises. Only on a cache hit
does the function return; the build-inject-cache code after the
self-call runs only if the self-call returned, which it never does from
an empty cache. -/
def custom_openapi (OPENAPI_SERVERS : List String) :
    Nat → AppState → Except PyError (OpenAPISchema × AppState)
  | 0, _ => .error .recursionError
  | fuel + 1, st =>
      match st.openapi_schema with
      | some s => .ok (s, st)
      | none =>
          match custom_openapi OPENAPI_SERVERS fuel st with
          | .error e => .error e
          | .ok (openapi_schema, st1) =>
              let schema :=
                if OPENAPI_SERVERS.isEmpty then openapi_schema
                else { openapi_schema with servers := some OPENAPI_SERVERS }
              .ok (schema, { st1 with openapi_schema := some schema })

/-- Invariant claimed of every `QueryResponse` the handlers produce. -/
def QueryResponse.invariant (r : QueryResponse) : Prop :=
  (r.error.isSome ↔ r.success = false) ∧
  (r.success = true → r.row_count = r.data.length)

/-- Invariant claimed of every `TablesResponse` the handlers produce. -/
def TablesResponse.invariant (r : TablesResponse) : Prop :=
  (r.error.isSome ↔ r.success = false) ∧
  (r.success = true → r.count = r.tables.length)

/-- Invariant claimed of every `TableSchemaResponse` the handlers
produce. -/
def TableSchemaResponse.invariant (r : TableSchemaResponse) : Prop :=
  r.error.isSome ↔ r.success = false

/-- A trivial concrete warehouse used by witness instantiations. -/
def trivialWarehouse : Warehouse where
  execute := fun _ => .ok []
  tables := .ok []
  describe := fun _ => .ok []

/-- A concrete warehouse exposing three tables, used by witness
instantiations. -/
def sampleTablesWarehouse : Warehouse where
  execute := fun _ => .ok []
  tables := .ok ["sales.orders", "hr.employees", "ops.jobs"]
  describe := fun _ => .ok []

/-- A concrete database over `sampleTablesWarehouse` with the dataset
filter of the claimed example. -/
def sampleTablesDb : BigQueryDatabase where
  project := "p"
  location := "us"
  key_file := none
  datasets_filter := ["sales", "ops"]
  warehouse := sampleTablesWarehouse

/-- C1: with a valid bearer token and an uninitialized `db` handle, every
protected endpoint responds with an HTTP 200 envelope whose `error` is the
stringified 503 exception — not with HTTP status 503 — because the
`raise HTTPException(503, "Database not initialized")` sits inside the
handler's `try` block and is caught by its own `except Exception` clause.
This evaluates the code at the failing input, exhibiting the divergence
from the claimed 503 response. -/
theorem uninitialized_db_yields_200_envelope :
    postQuery { API_KEY := "your-secret-api-key", db := none }
        (some "Bearer your-secret-api-key") { query := "SELECT 1" }
      = (.envelope { success := false, data := [], row_count := 0,
                     error := some "503: Database not initialized" }, []) ∧
    getTables { API_KEY := "your-secret-api-key", db := none }
        (some "Bearer your-secret-api-key")
      = (.envelope { success := false, tables := [], count := 0,
                     error := some "503: Database not initialized" }, []) ∧
    describeTable { API_KEY := "your-secret-api-key", db := none }
        (some "Bearer your-secret-api-key") { table_name := "sales.orders" }
      = (.envelope { success := false, ddl := [],
                     error := some "503: Database not initialized" }, []) ∧
    (Response.envelope { success := false, data := [], row_count := 0,
                         error := some "503: Database not initialized" }
       ≠ (Response.httpError 503 "Database not initialized" : Response QueryResponse)) := by
  refine ⟨rfl, rfl, rfl, by decide⟩

/-- C7: `GET /` and `GET /health` ignore the database handle and any
presented credential, cannot fail, and always return
`HealthResponse{healthy: true, version: "1.0.0", service: "BigQuery API
for ChatGPT Connector"}`. -/
theorem health_always_healthy (st : ServerState) (authorization : Option String) :
    getHealth st authorization
      = .envelope { healthy := true, version := "1.0.0",
                    service := "BigQuery API for ChatGPT Connector" } := rfl

/-- C4: for `POST /query` with a passing auth check and an initialized
database whose execute call fails with message `M`, the endpoint returns
the HTTP 200 envelope `{success: false, data: [], row_count: 0, error: M}`
with the message passed through verbatim; no exception escapes the
handler, and exactly the one execute call was made. -/
theorem query_failure_folded_into_envelope
    (st : ServerState) (authorization : Option String) (tok : String)
    (d : BigQueryDatabase) (request : QueryRequest) (M : String)
    (hauth : authCheck st.API_KEY authorization = .ok tok)
    (hdb : st.db = some d)
    (hexec : d.execute_query request.query = .error M) :
    postQuery st authorization request
      = (.envelope { success := false, data := [], row_count := 0,
                     error := some M }, [.execute request.query]) := by
  simp only [postQuery, hauth, execute_query, hdb, hexec]

/-- Witness for `query_failure_folded_into_envelope` at a concrete
failing warehouse. -/
theorem query_failure_folded_into_envelope_witness :
    postQuery { API_KEY := "k",
                db := some { project := "p", location := "us", key_file := none,
                             datasets_filter := [],
                             warehouse := { execute := fun _ => .error "bad SQL",
                                            tables := .ok [],
                                            describe := fun _ => .ok [] } } }
        (some "Bearer k") { query := "SELECT 1" }
      = (.envelope { success := false, data := [], row_count := 0,
                     error := some "bad SQL" }, [.execute "SELECT 1"]) :=
  query_failure_folded_into_envelope _ _ "k" _ _ "bad SQL" rfl rfl rfl

/-- C5: for `POST /query` with a passing auth check and an initialized
database whose execute call returns `rows`, the endpoint returns
`{success: true, data: rows, row_count: rows.length, error: none}`, so
`row_count` equals the length of `data` and the rows are unchanged. -/
theorem query_success_returns_rows
    (st : ServerState) (authorization : Option String) (tok : String)
    (d : BigQueryDatabase) (request : QueryRequest) (rows : List Row)
    (hauth : authCheck st.API_KEY authorization = .ok tok)
    (hdb : st.db = some d)
    (hexec : d.execute_query request.query = .ok rows) :
    postQuery st authorization request
      = (.envelope { success := true, data := rows, row_count := rows.length,
                     error := none }, [.execute request.query]) := by
  simp only [postQuery, hauth, execute_query, hdb, hexec]

/-- Witness for `query_success_returns_rows` at a concrete two-row
result. -/
theorem query_success_returns_rows_witness :
    postQuery { API_KEY := "k",
                db := some { project := "p", location := "us", key_file := none,
                             datasets_filter := [],
                             warehouse := { execute := fun _ => .ok [[("a", "1")], [("a", "2")]],
                                            tables := .ok [],
                                            describe := fun _ => .ok [] } } }
        (some "Bearer k") { query := "SELECT a FROM t" }
      = (.envelope { success := true, data := [[("a", "1")], [("a", "2")]],
                     row_count := 2, error := none }, [.execute "SELECT a FROM t"]) :=
  query_success_returns_rows _ _ "k" _ _ [[("a", "1")], [("a", "2")]] rfl rfl rfl

/-- C2: for `GET /tables` with a passing auth check and an initialized
database whose warehouse exposes tables `ts`, the endpoint returns exactly
the tables surviving the configured dataset filter — all of `ts` when the
filter is empty, otherwise those whose dataset component is in the filter
— with `count` equal to the length of the returned list. -/
theorem tables_filtered_by_dataset
    (st : ServerState) (authorization : Option String) (tok : String)
    (d : BigQueryDatabase) (ts : List String)
    (hauth : authCheck st.API_KEY authorization = .ok tok)
    (hdb : st.db = some d)
    (hts : d.warehouse.tables = .ok ts) :
    getTables st authorization
      = (.envelope { success := true,
                     tables := if d.datasets_filter.isEmpty then ts
                               else ts.filter
                                 (fun t => d.datasets_filter.contains (datasetComponent t)),
                     count := (if d.datasets_filter.isEmpty then ts
                               else ts.filter
                                 (fun t => d.datasets_filter.contains (datasetComponent t))).length,
                     error := none }, [.listTables]) := by
  simp only [getTables, hauth, list_tables, hdb, BigQueryDatabase.list_tables, hts]
  by_cases h : d.datasets_filter.isEmpty <;> simp [h]

/-- Witness for `tables_filtered_by_dataset` at the concrete instance of
the claim: filter `["sales","ops"]`, accessible tables
`["sales.orders","hr.employees","ops.jobs"]`, response tables
`["sales.orders","ops.jobs"]` with count 2. -/
theorem tables_filtered_by_dataset_witness :
    getTables { API_KEY := "k", db := some sampleTablesDb } (some "Bearer k")
      = (.envelope { success := true, tables := ["sales.orders", "ops.jobs"],
                     count := 2, error := none }, [.listTables]) := by
  have h := tables_filtered_by_dataset { API_KEY := "k", db := some sampleTablesDb }
    (some "Bearer k") "k" sampleTablesDb
    ["sales.orders", "hr.employees", "ops.jobs"] rfl rfl rfl
  exact h.trans (by decide)

/-- C3 counterexample: a request to `POST /query` with a missing bearer
credential is rejected by FastAPI's `HTTPBearer` scheme with HTTP 403
"Not authenticated", which is not the HTTP 401 "Invalid API key" response
the claim asserts for missing credentials. -/
theorem missing_credential_yields_403 :
    postQuery { API_KEY := "your-secret-api-key", db := none } none { query := "SELECT 1" }
      = (.httpError 403 "Not authenticated", []) ∧
    (Response.httpError 403 "Not authenticated" : Response QueryResponse)
      ≠ .httpError 401 "Invalid API key" :=
  ⟨rfl, by decide⟩

/-- C3 amended: whenever the dependency chain rejects a request, every
protected endpoint returns exactly that HTTP error and performs no engine
call; a credential that was presented but is not string-equal to the
configured key is rejected with HTTP 401 "Invalid API key", while a
request with no Authorization header at all is rejected earlier by
`HTTPBearer` with HTTP 403 "Not authenticated". -/
theorem auth_rejection_blocks_engine
    (st : ServerState) (authorization : Option String)
    (q : QueryRequest) (t : TableNameRequest) (e : Nat × String)
    (h : authCheck st.API_KEY authorization = .error e) :
    postQuery st authorization q = (.httpError e.1 e.2, []) ∧
    getTables st authorization = (.httpError e.1 e.2, []) ∧
    describeTable st authorization t = (.httpError e.1 e.2, []) ∧
    (∀ cred, httpBearerCall authorization = .ok cred → cred ≠ st.API_KEY →
        e = (401, "Invalid API key")) ∧
    (authorization = none → e = (403, "Not authenticated")) := by
  refine ⟨?_, ?_, ?_, ?_, ?_⟩
  · simp only [postQuery, h]
  · simp only [getTables, h]
  · simp only [describeTable, h]
  · intro cred hb hne
    have hv : verify_token st.API_KEY cred = .error e := by
      unfold authCheck at h
      rw [hb] at h
      exact h
    unfold verify_token at hv
    rw [if_pos (by simpa using hne)] at hv
    exact (Except.error.inj hv).symm
  · intro hnone
    subst hnone
    have h2 : (Except.error (403, "Not authenticated") : Except (Nat × String) String)
        = .error e := h
    exact (Except.error.inj h2).symm

/-- Witness for `auth_rejection_blocks_engine` at a concrete mismatched
bearer token. -/
theorem auth_rejection_blocks_engine_witness :
    postQuery { API_KEY := "your-secret-api-key", db := none }
        (some "Bearer wrong-key") { query := "SELECT 1" }
      = (.httpError 401 "Invalid API key", []) ∧
    getTables { API_KEY := "your-secret-api-key", db := none }
        (some "Bearer wrong-key")
      = (.httpError 401 "Invalid API key", []) ∧
    describeTable { API_KEY := "your-secret-api-key", db := none }
        (some "Bearer wrong-key") { table_name := "d.t" }
      = (.httpError 401 "Invalid API key", []) := by
  have h := auth_rejection_blocks_engine { API_KEY := "your-secret-api-key", db := none }
      (some "Bearer wrong-key") { query := "SELECT 1" } { table_name := "d.t" }
      (401, "Invalid API key") rfl
  exact ⟨h.1, h.2.1, h.2.2.1⟩

/-- C6: every envelope any of the three handlers produces, on every
execution path (database missing, engine success, engine failure),
satisfies the response invariants: `error` is set iff `success` is false,
and on success `row_count` and `count` equal the lengths of `data` and
`tables` respectively. -/
theorem handler_envelopes_satisfy_invariants
    (db : Option BigQueryDatabase) (q : QueryRequest) (t : TableNameRequest) :
    (execute_query db q).1.invariant ∧ (list_tables db).1.invariant ∧
    (describe_table db t).1.invariant := by
  refine ⟨?_, ?_, ?_⟩
  · cases db with
    | none => simp [execute_query, QueryResponse.invariant]
    | some d =>
        cases h : d.execute_query q.query with
        | ok r => simp [execute_query, h, QueryResponse.invariant]
        | error e => simp [execute_query, h, QueryResponse.invariant]
  · cases db with
    | none => simp [list_tables, TablesResponse.invariant]
    | some d =>
        cases h : d.list_tables with
        | ok r => simp [list_tables, h, TablesResponse.invariant]
        | error e => simp [list_tables, h, TablesResponse.invariant]
  · cases db with
    | none => simp [describe_table, TableSchemaResponse.invariant]
    | some d =>
        cases h : d.describe_table t.table_name with
        | ok r => simp [describe_table, h, TableSchemaResponse.invariant]
        | error e => simp [describe_table, h, TableSchemaResponse.invariant]

/-- C8: the description builder never produces a description. Because
`app.openapi` has been rebound to `custom_openapi`, the `app.openapi()`
call inside it re-enters `custom_openapi` with the cache still empty, so
from an empty cache the builder exhausts every recursion budget and ends
in `RecursionError` — for any configured server list and any budget. No
server list is ever injected, nothing is ever cached, and the state that
the cache-hit branch would need can never be produced by the builder
itself: the claimed inject-once-and-cache behavior is unreachable. -/
theorem custom_openapi_never_builds
    (OPENAPI_SERVERS : List String) (fuel : Nat) :
    custom_openapi OPENAPI_SERVERS fuel { openapi_schema := none }
      = .error .recursionError := by
  induction fuel with
  | zero => rfl
  | succ n ih => simp [custom_openapi, ih]

/-- C9: `startup_event` raises (so the process never becomes ready and no
`BigQueryDatabase` is constructed) exactly when the project or location
variable is absent or empty; when both are present and non-empty it
constructs the database once, from the project, the location, the
optional credentials path and the parsed dataset filter. -/
theorem startup_requires_project_and_location (env : Env) (wh : Warehouse) :
    ((pyFalsy (env.get "BIGQUERY_PROJECT") || pyFalsy (env.get "BIGQUERY_LOCATION")) = true →
        startup_event env wh
          = .error "BIGQUERY_PROJECT and BIGQUERY_LOCATION environment variables are required") ∧
    (∀ p l, env.get "BIGQUERY_PROJECT" = some p → p ≠ "" →
        env.get "BIGQUERY_LOCATION" = some l → l ≠ "" →
        startup_event env wh
          = .ok { project := p, location := l,
                  key_file := env.get "BIGQUERY_KEY_FILE",
                  datasets_filter := parseDatasetsFilter env,
                  warehouse := wh }) := by
  constructor
  · intro h
    simp [startup_event, h]
  · intro p l hp hpne hl hlne
    simp only [startup_event, hp, hl, pyFalsy, Option.getD_some]
    rw [if_neg]
    simp only [Bool.or_eq_true, beq_iff_eq, not_or]
    exact ⟨hpne, hlne⟩

/-- Witness for `startup_requires_project_and_location`: a concrete
environment missing the project aborts startup, and one carrying both
project and location constructs the database. -/
theorem startup_requires_project_and_location_witness :
    startup_event { vars := [("BIGQUERY_LOCATION", "US")] } trivialWarehouse
      = .error "BIGQUERY_PROJECT and BIGQUERY_LOCATION environment variables are required" ∧
    startup_event { vars := [("BIGQUERY_PROJECT", "proj"), ("BIGQUERY_LOCATION", "US")] }
        trivialWarehouse
      = .ok { project := "proj", location := "US", key_file := none,
              datasets_filter := [], warehouse := trivialWarehouse } := by
  constructor
  · exact (startup_requires_project_and_location _ _).1 rfl
  · exact (startup_requires_project_and_location
      { vars := [("BIGQUERY_PROJECT", "proj"), ("BIGQUERY_LOCATION", "US")] }
      trivialWarehouse).2 "proj" "US" rfl (by decide) rfl (by decide)

/-- C10: when `MY_API_KEY` is absent from the environment, the configured
key is the literal default `"your-secret-api-key"`, and a bearer token
equal to that literal passes the protected endpoints' auth check. -/
theorem default_api_key_accepted (env : Env) (h : env.get "MY_API_KEY" = none) :
    API_KEY_of env = "your-secret-api-key" ∧
    authCheck (API_KEY_of env) (some "Bearer your-secret-api-key")
      = .ok "your-secret-api-key" := by
  have hk : API_KEY_of env = "your-secret-api-key" := by simp [API_KEY_of, h]
  refine ⟨hk, ?_⟩
  rw [hk]
  rfl

/-- Witness for `default_api_key_accepted` at the empty environment. -/
theorem default_api_key_accepted_witness :
    API_KEY_of { vars := [] } = "your-secret-api-key" ∧
    authCheck (API_KEY_of { vars := [] }) (some "Bearer your-secret-api-key")
      = .ok "your-secret-api-key" :=
  default_api_key_accepted { vars := [] } rfl

end BQGateway
